import Mathlib

/-!
Verification of the token resolution and report-aggregation pipeline of a
multi-platform token lookup bot. The definitions below are a shallow
embedding of the TypeScript sources (core/parser.ts, core/lookup.ts,
core/resolver.ts and the watchlist scanner). JavaScript numbers are
modelled as rationals, JavaScript strings as Lean strings (operating on
their character lists), nullable values as Option, and each rejected or
null upstream call as a none argument.
-/

/-! ## Character and string helpers

JS regex and string primitives restricted to what the parser uses.
Whitespace is the ASCII subset of the JS regex class backslash-s.
-/

def isWsChar (c : Char) : Bool :=
  c.toNat = 32 || c.toNat = 9 || c.toNat = 10 || c.toNat = 13 || c.toNat = 11 || c.toNat = 12

def isHexDigit (c : Char) : Bool :=
  (('0' ≤ c) && (c ≤ '9')) || (('a' ≤ c) && (c ≤ 'f')) || (('A' ≤ c) && (c ≤ 'F'))

/-- Base58 alphabet used by the Solana and Tron address patterns:
digits 1-9 and latin letters except I, O and l (0 is also excluded). -/
def isBase58 (c : Char) : Bool :=
  (('1' ≤ c) && (c ≤ '9')) ||
  (('A' ≤ c) && (c ≤ 'H')) || (('J' ≤ c) && (c ≤ 'N')) || (('P' ≤ c) && (c ≤ 'Z')) ||
  (('a' ≤ c) && (c ≤ 'k')) || (('m' ≤ c) && (c ≤ 'z'))

def isAsciiLetter (c : Char) : Bool :=
  (('A' ≤ c) && (c ≤ 'Z')) || (('a' ≤ c) && (c ≤ 'z'))

def asciiLower (c : Char) : Char :=
  if ('A' ≤ c) && (c ≤ 'Z') then Char.ofNat (c.toNat + 32) else c

def asciiUpper (c : Char) : Char :=
  if ('a' ≤ c) && (c ≤ 'z') then Char.ofNat (c.toNat - 32) else c

/-- JS String.prototype.trim. -/
def trimL (l : List Char) : List Char :=
  ((l.dropWhile isWsChar).reverse.dropWhile isWsChar).reverse

/-- First whitespace-delimited token of a string: split on whitespace, take
element 0. On already-trimmed input this agrees with JS split on the
whitespace regex (and yields the empty word on empty input, as JS does). -/
def firstWordL (l : List Char) : List Char :=
  l.takeWhile (fun c => !isWsChar c)

/-- Whitespace-split into (nonempty) words, accumulator-based so it reduces
structurally. On trimmed input this is JS split on the whitespace regex. -/
def wordsAux : List Char → List Char → List (List Char)
  | [], acc => if acc.isEmpty then [] else [acc.reverse]
  | c :: cs, acc =>
    if isWsChar c then
      if acc.isEmpty then wordsAux cs [] else acc.reverse :: wordsAux cs []
    else wordsAux cs (c :: acc)

def wordsL (l : List Char) : List (List Char) := wordsAux l []

/-! ## Input parser (src/core/parser.ts)

The anchored address regexes, the anywhere variants and the two dollar
symbol patterns. An anywhere pattern, bracketed by start-or-whitespace and
whitespace-or-end and whose body contains no whitespace characters, matches
a trimmed text exactly when some whitespace-delimited word matches the
anchored pattern, with the leftmost regex match being the first such word.
-/

/-- Anchored EVM address: 0x followed by exactly 40 hex characters. -/
def evmTest : List Char → Bool
  | '0' :: 'x' :: rest => rest.length = 40 && rest.all isHexDigit
  | _ => false

/-- Anchored Tron address: T followed by exactly 33 base58 characters. -/
def tronTest : List Char → Bool
  | 'T' :: rest => rest.length = 33 && rest.all isBase58
  | _ => false

/-- Anchored Solana address: 32 to 44 base58 characters. -/
def solTest (w : List Char) : Bool :=
  32 ≤ w.length && w.length ≤ 44 && w.all isBase58

/-- Guard of the first branch of both scanners: the trimmed text starts
with a dollar sign and has length at least 2. -/
def startsDollarLong : List Char → Bool
  | '$' :: _ :: _ => true
  | _ => false

/-- Match of the bounded dollar-symbol pattern (dollar, 2 to 10 letters,
then whitespace or end) at a position directly after a dollar sign.
Greedy matching with backtracking reduces to: the maximal letter run has
length between 2 and 10 and is followed by whitespace or the end. -/
def dollarBoundedAt (l : List Char) : Bool :=
  let run := l.takeWhile isAsciiLetter
  (2 ≤ run.length && run.length ≤ 10) &&
    (match l.drop run.length with
     | [] => true
     | d :: _ => isWsChar d)

/-- Existence of a match of the bounded dollar-symbol pattern anywhere. -/
def scanDollarBounded : List Char → Bool
  | [] => false
  | '$' :: rest => dollarBoundedAt rest || scanDollarBounded rest
  | _ :: rest => scanDollarBounded rest

/-- Leftmost match of the unbounded dollar-symbol pattern (dollar then 2 to
10 letters, no trailing boundary), returning the captured group. -/
def firstDollarSym : List Char → Option (List Char)
  | [] => none
  | '$' :: rest =>
    let run := rest.takeWhile isAsciiLetter
    if 2 ≤ run.length then some ('$' :: run.take 10) else firstDollarSym rest
  | _ :: rest => firstDollarSym rest

/-- Keys of the CHAIN_ALIASES table. The source indexes a record and only
tests truthiness of the value, and every value is a nonempty string, so
membership in the key set is the faithful test. -/
def CHAIN_ALIAS_KEYS : List String :=
  ["eth", "ethereum", "sol", "solana", "bsc", "bnb", "binance", "base",
   "arb", "arbitrum", "poly", "polygon", "avax", "avalanche", "op",
   "optimism", "tron", "fantom", "ftm", "blast", "scroll", "linea",
   "mantle", "ronin", "sei", "zksync", "zk", "unichain", "sonic", "monad",
   "mon", "near", "starknet", "stark", "sui", "ton", "hyperevm", "plasma",
   "iotaevm", "iota"]

def isChainAlias (w : List Char) : Bool :=
  CHAIN_ALIAS_KEYS.contains (String.mk w)

/-- JS replace of one leading dollar sign with the empty string. -/
def stripLeadDollar : List Char → List Char
  | '$' :: rest => rest
  | l => l

/-- Chain-hint loop of the embedded-symbol branch of extractTokenQuery:
first word whose lowercased, dollar-stripped form is a chain alias and is
not the symbol itself; returns that lowercased alias key. -/
def dollarHintLoop (symU : List Char) : List (List Char) → Option (List Char)
  | [] => none
  | w :: ws =>
    let lower := stripLeadDollar (w.map asciiLower)
    if isChainAlias lower && !(('$' :: lower.map asciiUpper) == symU) then
      some lower
    else dollarHintLoop symU ws

/-- Chain-hint loop of the embedded-contract-address branch: first word
that lowercases to a chain alias distinct from the lowercased address. -/
def caHintLoop (caLower : List Char) : List (List Char) → Option (List Char)
  | [] => none
  | w :: ws =>
    let lower := w.map asciiLower
    if isChainAlias lower && !(lower == caLower) then some lower
    else caHintLoop caLower ws

/-- The loose passive-scan predicate isTokenQuery, written as the
disjunction of its early-return branches in source order. -/
def isTokenQueryL (t : List Char) : Bool :=
  startsDollarLong t ||
  evmTest (firstWordL t) ||
  (32 ≤ (firstWordL t).length && solTest (firstWordL t)) ||
  tronTest (firstWordL t) ||
  scanDollarBounded t ||
  ((wordsL t).find? evmTest).isSome ||
  ((wordsL t).find? tronTest).isSome ||
  (match (wordsL t).find? solTest with
   | some w => decide (32 ≤ w.length)
   | none => false)

def isTokenQuery (s : String) : Bool := isTokenQueryL (trimL s.data)

/-- extractTokenQuery on the trimmed character list. -/
def extractTokenQueryL (t : List Char) : Option (List Char) :=
  if startsDollarLong t then some t
  else if evmTest (firstWordL t) then some t
  else if 32 ≤ (firstWordL t).length && solTest (firstWordL t) then some t
  else if tronTest (firstWordL t) then some t
  else match firstDollarSym t with
    | some sym =>
      some (match dollarHintLoop (sym.map asciiUpper) (wordsL t) with
            | some lower => sym ++ ' ' :: lower
            | none => sym)
    | none =>
      match (wordsL t).find? evmTest with
      | some ca =>
        some (match caHintLoop (ca.map asciiLower) (wordsL t) with
              | some lower => ca ++ ' ' :: lower
              | none => ca)
      | none =>
        match (wordsL t).find? tronTest with
        | some w => some w
        | none =>
          match (wordsL t).find? solTest with
          | some w => if 32 ≤ w.length then some w else none
          | none => none

def extractTokenQuery (s : String) : Option String :=
  (extractTokenQueryL (trimL s.data)).map String.mk

/-! ## Data model (src/core/types.ts, src/nansen/client.ts)

JS numbers become rationals; optional or nullable fields become Option.
The two string-literal unions (trade side, data source) stay strings.
-/

structure ParsedInput where
  query : String
  isContractAddress : Bool
  chainHint : Option String
  inferredChain : Option String
deriving DecidableEq

structure ResolvedToken where
  name : String
  symbol : String
  chain : String
  address : String
  coingeckoId : Option String
deriving DecidableEq

structure FlowSegment where
  name : String
  netFlowUsd : ℚ
  avgFlowUsd : ℚ
  walletCount : ℕ
deriving DecidableEq

structure SmartMoneyBuySell where
  boughtVolumeUsd : ℚ
  soldVolumeUsd : ℚ
  netFlowUsd : ℚ
  buyerCount : ℕ
  sellerCount : ℕ
deriving DecidableEq

structure TopTrader where
  label : String
  volumeUsd : ℚ
  side : String
deriving DecidableEq

structure SmartMoneySection where
  buySell : Option SmartMoneyBuySell
  topBuyers : List TopTrader
  topSellers : List TopTrader
deriving DecidableEq

structure TokenReport where
  token : ResolvedToken
  priceUsd : Option ℚ
  marketCapUsd : Option ℚ
  fdvUsd : Option ℚ
  priceChange24h : Option ℚ
  volume24hUsd : Option ℚ
  liquidityUsd : Option ℚ
  tokenAgeDays : Option ℤ
  holderCount : Option ℚ
  flows : List FlowSegment
  smartMoney : SmartMoneySection
  nansenUrl : String
  dataSource : String
deriving DecidableEq

/-- Flattened analytics-provider token info. deployment_date is modelled
as the epoch milliseconds already extracted from the source date string;
a string that is absent or fails to parse is none. -/
structure NansenTokenInfo where
  name : Option String
  symbol : Option String
  deployment_date : Option ℤ
  market_cap : Option ℚ
  fdv : Option ℚ
  volume : Option ℚ
  liquidity : Option ℚ
  price : Option ℚ
  price_change : Option ℚ
  holder_count : Option ℚ
deriving DecidableEq

structure NansenFlowIntelligence where
  whale_net_flow_usd : ℚ
  whale_avg_flow_usd : ℚ
  whale_wallet_count : ℕ
  smart_trader_net_flow_usd : ℚ
  smart_trader_avg_flow_usd : ℚ
  smart_trader_wallet_count : ℕ
  public_figure_net_flow_usd : ℚ
  public_figure_avg_flow_usd : ℚ
  public_figure_wallet_count : ℕ
  top_pnl_net_flow_usd : ℚ
  top_pnl_avg_flow_usd : ℚ
  top_pnl_wallet_count : ℕ
  exchange_net_flow_usd : ℚ
  exchange_avg_flow_usd : ℚ
  exchange_wallet_count : ℕ
  fresh_wallets_net_flow_usd : ℚ
  fresh_wallets_avg_flow_usd : ℚ
  fresh_wallets_wallet_count : ℕ
deriving DecidableEq

structure NansenSmartMoneyTrader where
  address : String
  address_label : String
  bought_token_volume : ℚ
  sold_token_volume : ℚ
  token_trade_volume : ℚ
  bought_volume_usd : ℚ
  sold_volume_usd : ℚ
  trade_volume_usd : ℚ
deriving DecidableEq

/-- Result pair of the smart-money buy and sell trade-list call. -/
structure SmartMoneyData where
  buyers : List NansenSmartMoneyTrader
  sellers : List NansenSmartMoneyTrader
deriving DecidableEq

structure CoinGeckoMarketData where
  priceUsd : Option ℚ
  marketCapUsd : Option ℚ
  fdvUsd : Option ℚ
  volume24hUsd : Option ℚ
  priceChange24h : Option ℚ
deriving DecidableEq

/-! ## Generic helpers shared by the builder and the scanner -/

/-- JS nullish coalescing on nullable values. -/
def jsNullish {α : Type} : Option α → Option α → Option α
  | some x, _ => some x
  | none, b => b

/-- Stable insertion step: x goes before the first element whose key is
at most the key of x, so earlier elements with an equal key stay first. -/
def insertGe {α : Type} (ge : α → α → Bool) (x : α) : List α → List α
  | [] => [x]
  | y :: ys => if ge x y then x :: y :: ys else y :: insertGe ge x ys

/-- Stable insertion sort. With ge a b set to (key b ≤ key a) this is a
stable descending sort by key, the behavior of JS Array sort with the
comparator subtracting keys. -/
def isortGe {α : Type} (ge : α → α → Bool) : List α → List α
  | [] => []
  | x :: xs => insertGe ge x (isortGe ge xs)

/-- Stable descending sort by a key into a linear order. -/
def sortKeyDesc {α β : Type} [LinearOrder β] (k : α → β) (l : List α) : List α :=
  isortGe (fun a b => decide (k b ≤ k a)) l

/-! ## Report builder (src/core/lookup.ts) -/

def shortenAddress (addr : String) : String :=
  if addr.data.length ≤ 10 then addr
  else String.mk (addr.data.take 6) ++ "..." ++
       String.mk (addr.data.drop (addr.data.length - 4))

/-- JS short-circuit or of the address-book label with the shortened
address: the label string is falsy exactly when it is empty. -/
def labelOrShort (t : NansenSmartMoneyTrader) : String :=
  if t.address_label = "" then shortenAddress t.address else t.address_label

/-- buildSmartMoneySection. The volume sums run over the raw lists (the
source guards each addend with a JS or-zero, which is the identity on
rationals); counts and top lists are filtered to strictly positive
volume; top lists are stable-sorted descending and cut to 3. -/
def buildSmartMoneySection (data : Option SmartMoneyData) : SmartMoneySection :=
  match data with
  | none => { buySell := none, topBuyers := [], topSellers := [] }
  | some d =>
    let boughtVolumeUsd := d.buyers.foldl (fun s t => s + t.bought_volume_usd) 0
    let soldVolumeUsd := d.sellers.foldl (fun s t => s + t.sold_volume_usd) 0
    let buySell : SmartMoneyBuySell :=
      { boughtVolumeUsd := boughtVolumeUsd
        soldVolumeUsd := soldVolumeUsd
        netFlowUsd := boughtVolumeUsd - soldVolumeUsd
        buyerCount := (d.buyers.filter (fun b => decide (0 < b.bought_volume_usd))).length
        sellerCount := (d.sellers.filter (fun s => decide (0 < s.sold_volume_usd))).length }
    let topBuyers : List TopTrader :=
      ((sortKeyDesc (fun t => t.bought_volume_usd)
          (d.buyers.filter (fun b => decide (0 < b.bought_volume_usd)))).take 3).map
        (fun t => { label := labelOrShort t, volumeUsd := t.bought_volume_usd, side := "BUY" })
    let topSellers : List TopTrader :=
      ((sortKeyDesc (fun t => t.sold_volume_usd)
          (d.sellers.filter (fun s => decide (0 < s.sold_volume_usd)))).take 3).map
        (fun t => { label := labelOrShort t, volumeUsd := t.sold_volume_usd, side := "SELL" })
    { buySell := some buySell, topBuyers := topBuyers, topSellers := topSellers }

def extractFlows (d : NansenFlowIntelligence) : List FlowSegment :=
  [ { name := "Smart Traders", netFlowUsd := d.smart_trader_net_flow_usd,
      avgFlowUsd := d.smart_trader_avg_flow_usd, walletCount := d.smart_trader_wallet_count },
    { name := "Whales", netFlowUsd := d.whale_net_flow_usd,
      avgFlowUsd := d.whale_avg_flow_usd, walletCount := d.whale_wallet_count },
    { name := "Public Figures", netFlowUsd := d.public_figure_net_flow_usd,
      avgFlowUsd := d.public_figure_avg_flow_usd, walletCount := d.public_figure_wallet_count },
    { name := "Exchanges", netFlowUsd := d.exchange_net_flow_usd,
      avgFlowUsd := d.exchange_avg_flow_usd, walletCount := d.exchange_wallet_count },
    { name := "Top PnL Traders", netFlowUsd := d.top_pnl_net_flow_usd,
      avgFlowUsd := d.top_pnl_avg_flow_usd, walletCount := d.top_pnl_wallet_count },
    { name := "Fresh Wallets", netFlowUsd := d.fresh_wallets_net_flow_usd,
      avgFlowUsd := d.fresh_wallets_avg_flow_usd, walletCount := d.fresh_wallets_wallet_count } ]

/-- Whole days since deployment: floor of the millisecond difference over
86400000, none when there is no (parseable) deployment date. -/
def computeTokenAge (now : ℤ) (deploymentMs : Option ℤ) : Option ℤ :=
  deploymentMs.map (fun d => Int.fdiv (now - d) 86400000)

def determineDataSource (nansen : Option NansenTokenInfo)
    (cg : Option CoinGeckoMarketData) : String :=
  let hasNansen := match nansen with
    | some i => i.price.isSome || i.market_cap.isSome
    | none => false
  let hasCG := match cg with
    | some c => c.priceUsd.isSome || c.marketCapUsd.isSome
    | none => false
  if hasNansen && hasCG then "both"
  else if hasNansen then "nansen"
  else if hasCG then "coingecko"
  else "none"

def buildNansenUrl (token : ResolvedToken) : String :=
  "https://app.nansen.ai/token-god-mode?tokenAddress=" ++ token.address ++
    "&chain=" ++ token.chain

/-- The post-merge identity patch: adopt the analytics-provider name when
truthy and the current name is the placeholder or just the symbol, then
adopt the analytics-provider symbol (upper-cased) when truthy. The source
builds each patched token with an object spread, a fresh object. -/
def patchToken (token : ResolvedToken) (tokenInfo : Option NansenTokenInfo) : ResolvedToken :=
  let t1 :=
    match tokenInfo with
    | some i =>
      match i.name with
      | some n =>
        if n ≠ "" ∧ (token.name = "Unknown Token" ∨ token.name = token.symbol) then
          { token with name := n }
        else token
      | none => token
    | none => token
  match tokenInfo with
  | some i =>
    match i.symbol with
    | some s => if s ≠ "" then { t1 with symbol := String.mk (s.data.map asciiUpper) } else t1
    | none => t1
  | none => t1

/-- buildTokenReport. The four upstream calls are joined all-settled in
the source; a rejected or null-fulfilled call arrives here as none. now is
the current epoch milliseconds read inside computeTokenAge. -/
def buildTokenReport (now : ℤ) (token : ResolvedToken)
    (tokenInfo : Option NansenTokenInfo)
    (flowsData : Option NansenFlowIntelligence)
    (smartMoneyData : Option SmartMoneyData)
    (cgData : Option CoinGeckoMarketData) : TokenReport :=
  { token := patchToken token tokenInfo
    priceUsd := jsNullish (tokenInfo.bind (fun i => i.price)) (cgData.bind (fun c => c.priceUsd))
    marketCapUsd := jsNullish (tokenInfo.bind (fun i => i.market_cap)) (cgData.bind (fun c => c.marketCapUsd))
    fdvUsd := jsNullish (tokenInfo.bind (fun i => i.fdv)) (cgData.bind (fun c => c.fdvUsd))
    priceChange24h := cgData.bind (fun c => c.priceChange24h)
    volume24hUsd := jsNullish (tokenInfo.bind (fun i => i.volume)) (cgData.bind (fun c => c.volume24hUsd))
    liquidityUsd := tokenInfo.bind (fun i => i.liquidity)
    tokenAgeDays := computeTokenAge now (tokenInfo.bind (fun i => i.deployment_date))
    holderCount := tokenInfo.bind (fun i => i.holder_count)
    flows := match flowsData with
      | some f => extractFlows f
      | none => []
    smartMoney := buildSmartMoneySection smartMoneyData
    nansenUrl := buildNansenUrl token
    dataSource := determineDataSource tokenInfo cgData }

/-! ## Interest scorer and watchlist scanner (twitter scanner module)

The score is an integer accumulator starting at 0; every award pushes one
signal string. Each block below is one contribution pair (points, signals)
and scoreReport joins them in the source push order, so the joined signal
list is exactly the pushed sequence.
-/

/-- JS Number toFixed with d digits: round the absolute value half up at
the d-th decimal, render with exactly d decimals, prepend the sign. -/
def toFixed (q : ℚ) (d : ℕ) : String :=
  let x := |q|
  let n : ℤ := ⌊x * (10 : ℚ) ^ d + 1 / 2⌋
  let nn := n.toNat
  let ip := nn / 10 ^ d
  let fp := nn % 10 ^ d
  let fs := Nat.repr fp
  (if q < 0 then "-" else "") ++ Nat.repr ip ++
    (if d = 0 then "" else "." ++ (String.mk (List.replicate (d - fs.length) '0') ++ fs))

/-- Join of two contribution pairs: add the points, append the signals. -/
def addSig (a b : ℤ × List String) : ℤ × List String :=
  (a.1 + b.1, a.2 ++ b.2)

/-- Smart-money net-flow tiers: 30 points at one million dollars absolute,
15 points at half a million, both hard at-least comparisons. -/
def smNetPoints (bs : SmartMoneyBuySell) : ℤ × List String :=
  let netFlow := |bs.netFlowUsd|
  if 1000000 ≤ netFlow then
    let direction := if 0 ≤ bs.netFlowUsd then "buying" else "selling"
    (30, ["SM net " ++ direction ++ " $" ++ toFixed (netFlow / 1000000) 1 ++ "M"])
  else if 500000 ≤ netFlow then
    let direction := if 0 ≤ bs.netFlowUsd then "buying" else "selling"
    (15, ["SM net " ++ direction ++ " $" ++ toFixed (netFlow / 1000) 0 ++ "K"])
  else (0, [])

/-- Buyer to seller count imbalance of at least 3 to 1, either direction,
only when both counts are positive. -/
def smRatioPoints (bs : SmartMoneyBuySell) : ℤ × List String :=
  if 0 < bs.buyerCount ∧ 0 < bs.sellerCount then
    let ratio : ℚ := (bs.buyerCount : ℚ) / (bs.sellerCount : ℚ)
    if 3 ≤ ratio then (20, [toFixed ratio 1 ++ ":1 buy/sell ratio"])
    else if ratio ≤ 1 / 3 then (20, [toFixed (1 / ratio) 1 ++ ":1 sell/buy ratio"])
    else (0, [])
  else (0, [])

/-- Per-segment ratio bonus. A segment with zero average flow or zero
wallet count is skipped before the net-over-average ratio is formed. -/
def flowPoints (f : FlowSegment) : ℤ × List String :=
  if f.avgFlowUsd = 0 ∨ f.walletCount = 0 then (0, [])
  else
    let ratio := |f.netFlowUsd / f.avgFlowUsd|
    if 3 ≤ ratio ∧ 100000 ≤ |f.netFlowUsd| then
      if f.name = "Smart Traders" ∨ f.name = "Whales" then
        (25, [f.name ++ " " ++ toFixed ratio 1 ++ "x avg " ++
              (if 0 ≤ f.netFlowUsd then "inflow" else "outflow")])
      else if f.name = "Exchanges" then
        if f.netFlowUsd < 0 then
          (15, ["Exchange outflow " ++ toFixed ratio 1 ++ "x avg"])
        else (0, [])
      else (0, [])
    else (0, [])

/-- Whale segment with at least 5 million dollars absolute net flow. -/
def whalePoints (flows : List FlowSegment) : ℤ × List String :=
  match flows.find? (fun f => f.name == "Whales") with
  | some whaleFlow =>
    if 5000000 ≤ |whaleFlow.netFlowUsd| then
      (20, ["Whale " ++ (if 0 ≤ whaleFlow.netFlowUsd then "accumulation" else "distribution") ++
            " $" ++ toFixed (|whaleFlow.netFlowUsd| / 1000000) 1 ++ "M"])
    else (0, [])
  | none => (0, [])

/-- Absolute 24h price change of at least 10 percent. -/
def pricePoints (pc : Option ℚ) : ℤ × List String :=
  match pc with
  | some p =>
    if 10 ≤ |p| then
      (10, ["Price " ++ (if 0 ≤ p then "up" else "down") ++ " " ++ toFixed |p| 1 ++ "%"])
    else (0, [])
  | none => (0, [])

/-- Contribution of the whole smart-money block: nothing without an
aggregate, else the net-flow tier award then the count-ratio award. -/
def smPoints (osb : Option SmartMoneyBuySell) : ℤ × List String :=
  match osb with
  | some bs => addSig (smNetPoints bs) (smRatioPoints bs)
  | none => (0, [])

def scoreReport (report : TokenReport) : ℤ × List String :=
  addSig
    (addSig
      (addSig (smPoints report.smartMoney.buySell)
        (report.flows.foldl (fun acc f => addSig acc (flowPoints f)) (0, [])))
      (whalePoints report.flows))
    (pricePoints report.priceChange24h)

structure ScanResult where
  token : ResolvedToken
  report : TokenReport
  interestScore : ℤ
  signals : List String
deriving DecidableEq

/-- scanWatchlist. The per-token report build is passed in as a function;
none models a build that threw, which the source logs and skips without
aborting the remaining scan. Results are filtered to at least minScore and
stable-sorted descending by score (JS Array sort is stable and gets no
secondary key). The inter-token delay and logging carry no data flow. -/
def scanWatchlist (build : ResolvedToken → Option TokenReport)
    (tokens : List ResolvedToken) (minScore : ℤ) : List ScanResult :=
  let results := tokens.filterMap (fun token =>
    match build token with
    | none => none
    | some report =>
      let sc := scoreReport report
      if minScore ≤ sc.1 then
        some { token := token, report := report, interestScore := sc.1, signals := sc.2 }
      else none)
  sortKeyDesc (fun r => r.interestScore) results

/-! ## Token resolver, by-address path (src/core/resolver.ts) -/

/-- Map of canonical chain names to market-data-provider platform ids. -/
def CHAIN_TO_PLATFORM : List (String × String) :=
  [("ethereum", "ethereum"), ("bnb", "binance-smart-chain"), ("solana", "solana"),
   ("arbitrum", "arbitrum-one"), ("polygon", "polygon-pos"), ("optimism", "optimistic-ethereum"),
   ("avalanche", "avalanche"), ("base", "base"), ("tron", "tron"), ("fantom", "fantom"),
   ("blast", "blast"), ("scroll", "scroll"), ("linea", "linea"), ("mantle", "mantle"),
   ("ronin", "ronin"), ("sei", "sei-v2"), ("zksync", "zksync"), ("unichain", "unichain"),
   ("sonic", "sonic"), ("iotaevm", "iota-evm"), ("hyperevm", "hyperevm"),
   ("near", "near-protocol"), ("starknet", "starknet"), ("sui", "sui"),
   ("ton", "the-open-network"), ("plasma", "plasma"), ("monad", "monad")]

def lookupAssoc (m : List (String × String)) (k : String) : Option String :=
  (m.find? (fun p => p.1 == k)).map (fun p => p.2)

/-- JS truthiness normalization for a nullable string: the empty string is
falsy, like null. -/
def truthyOpt : Option String → Option String
  | some s => if s = "" then none else some s
  | none => none

/-- Priority-ordered chains probed when an EVM address carries no hint. -/
def DEFAULT_EVM_CHAINS : List String :=
  ["ethereum", "base", "arbitrum", "polygon", "optimism", "bnb", "avalanche",
   "scroll", "linea", "mantle", "zksync", "blast", "sonic", "monad", "ronin",
   "sei", "fantom", "unichain", "hyperevm", "iotaevm", "plasma"]

/-- Name and symbol returned by the market-data-provider contract lookup. -/
structure CGContractInfo where
  name : String
  symbol : String
deriving DecidableEq

/-- The per-chain probe loop of resolveByAddress. lookup stands for the
contract endpoint, taking the platform id and the lowercased address; a
non-ok response or a thrown fetch is none and the loop continues. -/
def tryChainsLoop (lookup : String → String → Option CGContractInfo)
    (query : String) : List String → Option ResolvedToken
  | [] => none
  | c :: rest =>
    match lookupAssoc CHAIN_TO_PLATFORM c with
    | none => tryChainsLoop lookup query rest
    | some platKey =>
      match lookup platKey (String.mk (query.data.map asciiLower)) with
      | some data =>
        some { name := data.name, symbol := String.mk (data.symbol.data.map asciiUpper),
               chain := c, address := query, coingeckoId := none }
      | none => tryChainsLoop lookup query rest

/-- resolveByAddress: probe the hinted chain, or the default priority list
when no hint is present, and fall back to a degraded placeholder token
when every probe fails. -/
def resolveByAddress (lookup : String → String → Option CGContractInfo)
    (parsed : ParsedInput) : ResolvedToken :=
  let chain : Option String :=
    match truthyOpt parsed.chainHint with
    | some s => some s
    | none => parsed.inferredChain
  let chainsToTry :=
    match truthyOpt chain with
    | some c => [c]
    | none => DEFAULT_EVM_CHAINS
  match tryChainsLoop lookup parsed.query chainsToTry with
  | some t => t
  | none =>
    { name := "Unknown Token", symbol := "???",
      chain := (truthyOpt chain).getD ("ethereum"),
      address := parsed.query, coingeckoId := none }

/-! ## Concrete instances used by the example parts and witnesses -/

def exToken (sym : String) : ResolvedToken :=
  { name := sym, symbol := sym, chain := "ethereum",
    address := "0x0000000000000000000000000000000000000001", coingeckoId := none }

/-- Smart-money section holding only an aggregate line, as the scan
examples need. -/
def smOnly (bought sold net : ℚ) (bc sc : ℕ) : SmartMoneySection :=
  { buySell := some { boughtVolumeUsd := bought, soldVolumeUsd := sold,
                      netFlowUsd := net, buyerCount := bc, sellerCount := sc },
    topBuyers := [], topSellers := [] }

/-- A report with every optional field empty, the base the examples vary. -/
def baseReport (t : ResolvedToken) : TokenReport :=
  { token := t, priceUsd := none, marketCapUsd := none, fdvUsd := none,
    priceChange24h := none, volume24hUsd := none, liquidityUsd := none,
    tokenAgeDays := none, holderCount := none, flows := [],
    smartMoney := { buySell := none, topBuyers := [], topSellers := [] },
    nansenUrl := "", dataSource := "none" }

def rep10 : TokenReport :=
  { baseReport (exToken ("T10")) with priceChange24h := some 15 }

def rep45 : TokenReport :=
  { baseReport (exToken ("T45")) with
    smartMoney := smOnly 1000000 0 1000000 5 0
    flows := [{ name := "Exchanges", netFlowUsd := -300000,
                avgFlowUsd := 100000, walletCount := 10 }] }

def rep30 : TokenReport :=
  { baseReport (exToken ("T30")) with smartMoney := smOnly 1000000 0 1000000 1 1 }

def rep60 : TokenReport :=
  { baseReport (exToken ("T60")) with
    smartMoney := smOnly 1000000 0 1000000 1 1
    flows := [{ name := "Whales", netFlowUsd := 6000000,
                avgFlowUsd := 6000000, walletCount := 3 }]
    priceChange24h := some 12 }

def rep25 : TokenReport :=
  { baseReport (exToken ("T25")) with
    flows := [{ name := "Smart Traders", netFlowUsd := 400000,
                avgFlowUsd := 100000, walletCount := 5 }] }

/-- Same shape as rep30 but one dollar short of the million tier. -/
def rep15 : TokenReport :=
  { baseReport (exToken ("T15")) with smartMoney := smOnly 999999 0 999999 1 1 }

/-- Watchlist of the scan example; the last token has a failing build. -/
def exTokens : List ResolvedToken :=
  [exToken ("T10"), exToken ("T45"), exToken ("T30"), exToken ("T60"), exToken ("T25"), exToken ("TF")]

/-- Stub report build for the scan example; the TF token throws. -/
def exBuild (t : ResolvedToken) : Option TokenReport :=
  if t.symbol = "T10" then some rep10
  else if t.symbol = "T45" then some rep45
  else if t.symbol = "T30" then some rep30
  else if t.symbol = "T60" then some rep60
  else if t.symbol = "T25" then some rep25
  else none

/-! ## Helper lemmas: the stable sort, contribution pairs, the flow fold -/

theorem insertGe_perm {α : Type} (ge : α → α → Bool) (x : α) (l : List α) :
    (insertGe ge x l).Perm (x :: l) := by
  induction l with
  | nil => exact List.Perm.refl _
  | cons y ys ih =>
    unfold insertGe
    by_cases h : ge x y = true
    · rw [if_pos h]
    · rw [if_neg h]
      exact (ih.cons y).trans (List.Perm.swap x y ys)

theorem isortGe_perm {α : Type} (ge : α → α → Bool) (l : List α) :
    (isortGe ge l).Perm l := by
  induction l with
  | nil => exact List.Perm.refl _
  | cons x xs ih =>
    exact (insertGe_perm ge x (isortGe ge xs)).trans (ih.cons x)

theorem sortKeyDesc_perm {α β : Type} [LinearOrder β] (k : α → β) (l : List α) :
    (sortKeyDesc k l).Perm l :=
  isortGe_perm _ l

theorem insertKey_pairwise {α β : Type} [LinearOrder β] (k : α → β) (x : α)
    (l : List α) (h : l.Pairwise (fun a b => k b ≤ k a)) :
    (insertGe (fun a b => decide (k b ≤ k a)) x l).Pairwise (fun a b => k b ≤ k a) := by
  induction l with
  | nil => simp [insertGe]
  | cons y ys ih =>
    rcases List.pairwise_cons.mp h with ⟨hy, hys⟩
    unfold insertGe
    simp only [decide_eq_true_eq]
    by_cases hxy : k y ≤ k x
    · rw [if_pos hxy]
      refine List.pairwise_cons.mpr ⟨?_, h⟩
      intro b hb
      rcases List.mem_cons.mp hb with hb1 | hb1
      · exact hb1 ▸ hxy
      · exact le_trans (hy b hb1) hxy
    · rw [if_neg hxy]
      refine List.pairwise_cons.mpr ⟨?_, ih hys⟩
      intro b hb
      have hb2 := (insertGe_perm (fun a b => decide (k b ≤ k a)) x ys).mem_iff.mp hb
      rcases List.mem_cons.mp hb2 with hb1 | hb1
      · exact hb1 ▸ le_of_lt (lt_of_not_le hxy)
      · exact hy b hb1

theorem sortKeyDesc_pairwise {α β : Type} [LinearOrder β] (k : α → β) (l : List α) :
    (sortKeyDesc k l).Pairwise (fun a b => k b ≤ k a) := by
  induction l with
  | nil => simp [sortKeyDesc, isortGe]
  | cons x xs ih =>
    exact insertKey_pairwise k x _ ih

theorem filter_insertGe {α β : Type} [LinearOrder β] (k : α → β) (x : α)
    (l : List α) (s : β) :
    (insertGe (fun a b => decide (k b ≤ k a)) x l).filter (fun a => decide (k a = s)) =
      if k x = s then x :: l.filter (fun a => decide (k a = s))
      else l.filter (fun a => decide (k a = s)) := by
  induction l with
  | nil =>
    by_cases hx : k x = s <;> simp [insertGe, List.filter_cons, hx]
  | cons y ys ih =>
    unfold insertGe
    simp only [decide_eq_true_eq]
    by_cases hxy : k y ≤ k x
    · rw [if_pos hxy]
      by_cases hx : k x = s <;> by_cases hy : k y = s <;>
        simp [List.filter_cons, hx, hy]
    · rw [if_neg hxy]
      have hlt : k x < k y := lt_of_not_le hxy
      by_cases hx : k x = s
      · have hy : ¬(k y = s) := by
          intro hy
          rw [hx, hy] at hlt
          exact lt_irrefl s hlt
        simp [List.filter_cons, hx, hy, ih]
      · by_cases hy : k y = s <;> simp [List.filter_cons, hx, hy, ih]

theorem sortKeyDesc_filter_eq {α β : Type} [LinearOrder β] (k : α → β)
    (l : List α) (s : β) :
    (sortKeyDesc k l).filter (fun a => decide (k a = s)) =
      l.filter (fun a => decide (k a = s)) := by
  induction l with
  | nil => simp [sortKeyDesc, isortGe]
  | cons x xs ih =>
    have hstep : sortKeyDesc k (x :: xs) =
        insertGe (fun a b => decide (k b ≤ k a)) x (sortKeyDesc k xs) := rfl
    rw [hstep, filter_insertGe]
    by_cases hx : k x = s <;> simp [List.filter_cons, hx, ih]

theorem addSig_zero_right (a : ℤ × List String) : addSig a (0, []) = a := by
  simp [addSig]

theorem flowFold_eq_init (l : List FlowSegment) (init : ℤ × List String)
    (h : ∀ f ∈ l, flowPoints f = (0, [])) :
    l.foldl (fun acc f => addSig acc (flowPoints f)) init = init := by
  induction l generalizing init with
  | nil => rfl
  | cons f fs ih =>
    have hf : flowPoints f = (0, []) := h f (List.mem_cons_self f fs)
    simp only [List.foldl_cons, hf, addSig_zero_right]
    exact ih init (fun g hg => h g (List.mem_cons_of_mem f hg))

/-! ## Claim C1: loose-scan superset law -/

/-- Claim C1, counterexample: the embedded-symbol branch of
extractTokenQuery matches a dollar symbol with no trailing boundary, but
the loose predicate demands whitespace or end after the letters, so a
dollar symbol followed by punctuation is extracted yet not accepted. -/
theorem looseSuperset_counterexample :
    extractTokenQuery ("price of $PEPE? today") = some ("$PEPE") ∧
    isTokenQuery ("price of $PEPE? today") = false := by
  constructor
  · rfl
  · rfl

/-- Claim C1, amended: for every input on which the unbounded embedded
dollar-symbol pattern only matches where the boundary-anchored pattern
also matches, a successful extraction implies acceptance by the loose
predicate isTokenQuery. Every branch of extractTokenQuery other than the
embedded dollar-symbol one is guarded by exactly the test the loose
predicate runs, so this hypothesis is the full gap. -/
theorem looseSuperset_amended (x : String)
    (hdollar : (firstDollarSym (trimL x.data)).isSome = true →
      scanDollarBounded (trimL x.data) = true) :
    (extractTokenQuery x).isSome = true → isTokenQuery x = true := by
  unfold extractTokenQuery isTokenQuery
  intro hx0
  have hx : (extractTokenQueryL (trimL x.data)).isSome = true := by
    cases he : extractTokenQueryL (trimL x.data)
    · rw [he] at hx0
      simp at hx0
    · rfl
  clear hx0
  revert hx
  generalize trimL x.data = t at hdollar
  intro hx
  unfold extractTokenQueryL at hx
  unfold isTokenQueryL
  by_cases h1 : startsDollarLong t = true
  · simp [h1]
  · rw [if_neg h1] at hx
    by_cases h2 : evmTest (firstWordL t) = true
    · simp [h2]
    · rw [if_neg h2] at hx
      by_cases h3 : (32 ≤ (firstWordL t).length && solTest (firstWordL t)) = true
      · simp only [h3, Bool.true_or, Bool.or_true]
      · rw [if_neg h3] at hx
        by_cases h4 : tronTest (firstWordL t) = true
        · simp [h4]
        · rw [if_neg h4] at hx
          cases h5 : firstDollarSym t with
          | some sym =>
            have hb := hdollar (by rw [h5]; rfl)
            simp [hb]
          | none =>
            rw [h5] at hx
            cases h6 : (wordsL t).find? evmTest with
            | some ca => simp [h6]
            | none =>
              rw [h6] at hx
              cases h7 : (wordsL t).find? tronTest with
              | some w => simp [h7]
              | none =>
                rw [h7] at hx
                cases h8 : (wordsL t).find? solTest with
                | some w =>
                  rw [h8] at hx
                  by_cases hlen : 32 ≤ w.length
                  · simp [h8, hlen]
                  · simp [hlen] at hx
                | none =>
                  rw [h8] at hx
                  simp at hx

/-- Witness for the amended claim C1 at a concrete passive mention. -/
theorem looseSuperset_amended_witness :
    isTokenQuery ("tell me about $PEPE") = true :=
  looseSuperset_amended ("tell me about $PEPE") (fun _ => by decide) (by decide)

/-! ## Claims C2, C4, C10: the report builder -/

/-- Claim C2: for every token and every subset of rejected upstream calls
(a rejected call arrives as none), buildTokenReport still returns a full
report: a missing flow call yields an empty flows list, a missing
smart-money call yields a section with a null aggregate and empty top
lists, and missing market calls yield null market fields; moreover each
section depends only on its own call, so one rejection never disturbs the
fields fed by the other calls. -/
theorem buildTokenReport_degrades (now : ℤ) (token : ResolvedToken)
    (ti : Option NansenTokenInfo) (fl : Option NansenFlowIntelligence)
    (sm : Option SmartMoneyData) (cg : Option CoinGeckoMarketData) :
    (fl = none → (buildTokenReport now token ti fl sm cg).flows = []) ∧
    (sm = none → (buildTokenReport now token ti fl sm cg).smartMoney =
      { buySell := none, topBuyers := [], topSellers := [] }) ∧
    (ti = none → cg = none →
      (buildTokenReport now token ti fl sm cg).priceUsd = none ∧
      (buildTokenReport now token ti fl sm cg).marketCapUsd = none ∧
      (buildTokenReport now token ti fl sm cg).fdvUsd = none ∧
      (buildTokenReport now token ti fl sm cg).priceChange24h = none ∧
      (buildTokenReport now token ti fl sm cg).volume24hUsd = none ∧
      (buildTokenReport now token ti fl sm cg).liquidityUsd = none ∧
      (buildTokenReport now token ti fl sm cg).tokenAgeDays = none ∧
      (buildTokenReport now token ti fl sm cg).holderCount = none ∧
      (buildTokenReport now token ti fl sm cg).dataSource = "none") ∧
    (∀ ti2 sm2 cg2, (buildTokenReport now token ti2 fl sm2 cg2).flows =
      (buildTokenReport now token ti fl sm cg).flows) ∧
    (∀ now2 ti2 fl2 cg2, (buildTokenReport now2 token ti2 fl2 sm cg2).smartMoney =
      (buildTokenReport now token ti fl sm cg).smartMoney) := by
  refine ⟨fun h => ?_, fun h => ?_, fun h1 h2 => ?_, fun ti2 sm2 cg2 => rfl,
    fun now2 ti2 fl2 cg2 => rfl⟩
  · subst h
    rfl
  · subst h
    rfl
  · subst h1
    subst h2
    exact ⟨rfl, rfl, rfl, rfl, rfl, rfl, rfl, rfl, rfl⟩

/-- Witness for claim C2: all four upstream calls rejected at once still
produce the fully degraded report. -/
theorem buildTokenReport_degrades_witness :
    (buildTokenReport 0 (exToken ("X")) none none none none).flows = [] ∧
    (buildTokenReport 0 (exToken ("X")) none none none none).smartMoney =
      { buySell := none, topBuyers := [], topSellers := [] } ∧
    (buildTokenReport 0 (exToken ("X")) none none none none).priceUsd = none :=
  ⟨(buildTokenReport_degrades 0 (exToken ("X")) none none none none).1 rfl,
   (buildTokenReport_degrades 0 (exToken ("X")) none none none none).2.1 rfl,
   ((buildTokenReport_degrades 0 (exToken ("X")) none none none none).2.2.1 rfl rfl).1⟩

/-- Claim C4: the merge prefers the analytics-provider value and falls
back to the market-data value for price, market cap, FDV and volume;
liquidity has no market-data counterpart, so it is the analytics value or
null; and the 24h price change comes from the market-data provider alone,
whatever the analytics provider reported. The two closing equations are
the 5-versus-7 examples of the claim, plus one showing a populated
analytics price_change being ignored. -/
theorem merge_policy :
    (∀ (now : ℤ) (token : ResolvedToken) (ti : Option NansenTokenInfo)
        (fl : Option NansenFlowIntelligence) (sm : Option SmartMoneyData)
        (cg : Option CoinGeckoMarketData),
      (buildTokenReport now token ti fl sm cg).priceUsd =
        jsNullish (ti.bind (fun i => i.price)) (cg.bind (fun c => c.priceUsd)) ∧
      (buildTokenReport now token ti fl sm cg).marketCapUsd =
        jsNullish (ti.bind (fun i => i.market_cap)) (cg.bind (fun c => c.marketCapUsd)) ∧
      (buildTokenReport now token ti fl sm cg).fdvUsd =
        jsNullish (ti.bind (fun i => i.fdv)) (cg.bind (fun c => c.fdvUsd)) ∧
      (buildTokenReport now token ti fl sm cg).volume24hUsd =
        jsNullish (ti.bind (fun i => i.volume)) (cg.bind (fun c => c.volume24hUsd)) ∧
      (buildTokenReport now token ti fl sm cg).liquidityUsd =
        ti.bind (fun i => i.liquidity) ∧
      (buildTokenReport now token ti fl sm cg).priceChange24h =
        cg.bind (fun c => c.priceChange24h)) ∧
    (buildTokenReport 0 (exToken ("X"))
        (some { name := none, symbol := none, deployment_date := none,
                market_cap := none, fdv := none, volume := none, liquidity := none,
                price := some 5, price_change := some 99, holder_count := none })
        none none
        (some { priceUsd := some 7, marketCapUsd := none, fdvUsd := none,
                volume24hUsd := none, priceChange24h := some 3 })).priceUsd = some 5 ∧
    (buildTokenReport 0 (exToken ("X"))
        (some { name := none, symbol := none, deployment_date := none,
                market_cap := none, fdv := none, volume := none, liquidity := none,
                price := none, price_change := some 99, holder_count := none })
        none none
        (some { priceUsd := some 7, marketCapUsd := none, fdvUsd := none,
                volume24hUsd := none, priceChange24h := some 3 })).priceUsd = some 7 ∧
    (buildTokenReport 0 (exToken ("X"))
        (some { name := none, symbol := none, deployment_date := none,
                market_cap := none, fdv := none, volume := none, liquidity := none,
                price := some 5, price_change := some 99, holder_count := none })
        none none
        (some { priceUsd := some 7, marketCapUsd := none, fdvUsd := none,
                volume24hUsd := none, priceChange24h := some 3 })).priceChange24h = some 3 :=
  ⟨fun _ _ _ _ _ _ => ⟨rfl, rfl, rfl, rfl, rfl, rfl⟩, rfl, rfl, rfl⟩

/-- Claim C10: the report carries a freshly patched token built from the
input (the source uses object spreads, never assignment into the caller
object, and this embedding is the resulting value): chain, address and
the coin id always survive untouched, the whole token survives when the
analytics call rejected, and the patched identity is exactly patchToken. -/
theorem patchToken_frame (token : ResolvedToken) (ti : Option NansenTokenInfo) :
    (patchToken token ti).chain = token.chain ∧
    (patchToken token ti).address = token.address ∧
    (patchToken token ti).coingeckoId = token.coingeckoId := by
  refine ⟨?_, ?_, ?_⟩ <;>
    (unfold patchToken
     cases ti with
     | none => rfl
     | some i =>
       obtain ⟨nm, sy, dd, mc, fv, vo, li, pr, pc, hc⟩ := i
       cases nm <;> cases sy <;>
         simp only [] <;>
         (first
           | rfl
           | (split <;> first | rfl | (split <;> rfl))))

theorem build_no_mutation (now : ℤ) (token : ResolvedToken)
    (ti : Option NansenTokenInfo) (fl : Option NansenFlowIntelligence)
    (sm : Option SmartMoneyData) (cg : Option CoinGeckoMarketData) :
    (buildTokenReport now token ti fl sm cg).token.chain = token.chain ∧
    (buildTokenReport now token ti fl sm cg).token.address = token.address ∧
    (buildTokenReport now token ti fl sm cg).token.coingeckoId = token.coingeckoId ∧
    (ti = none → (buildTokenReport now token ti fl sm cg).token = token) ∧
    (buildTokenReport now token ti fl sm cg).token = patchToken token ti := by
  refine ⟨(patchToken_frame token ti).1, (patchToken_frame token ti).2.1,
    (patchToken_frame token ti).2.2, fun h => ?_, rfl⟩
  subst h
  rfl

/-- Witness for claim C10 at a patching analytics payload: the name and
symbol are adopted into the report token while the original chain and
address fields are unchanged. -/
theorem build_no_mutation_witness :
    (buildTokenReport 0
      { name := "Unknown Token", symbol := "???", chain := "base",
        address := "0xabc", coingeckoId := none }
      (some { name := some ("Pepe"), symbol := some ("pepe"), deployment_date := none,
              market_cap := none, fdv := none, volume := none, liquidity := none,
              price := none, price_change := none, holder_count := none })
      none none none).token.chain = "base" ∧
    (buildTokenReport 0
      { name := "Unknown Token", symbol := "???", chain := "base",
        address := "0xabc", coingeckoId := none }
      (some { name := some ("Pepe"), symbol := some ("pepe"), deployment_date := none,
              market_cap := none, fdv := none, volume := none, liquidity := none,
              price := none, price_change := none, holder_count := none })
      none none none).token =
      { name := "Pepe", symbol := "PEPE", chain := "base",
        address := "0xabc", coingeckoId := none } ∧
    (buildTokenReport 0 (exToken ("KEEP")) none none none none).token =
      exToken ("KEEP") :=
  ⟨(build_no_mutation 0
      { name := "Unknown Token", symbol := "???", chain := "base",
        address := "0xabc", coingeckoId := none }
      (some { name := some ("Pepe"), symbol := some ("pepe"), deployment_date := none,
              market_cap := none, fdv := none, volume := none, liquidity := none,
              price := none, price_change := none, holder_count := none })
      none none none).1,
   by
    rw [(build_no_mutation 0
      { name := "Unknown Token", symbol := "???", chain := "base",
        address := "0xabc", coingeckoId := none }
      (some { name := some ("Pepe"), symbol := some ("pepe"), deployment_date := none,
              market_cap := none, fdv := none, volume := none, liquidity := none,
              price := none, price_change := none, holder_count := none })
      none none none).2.2.2.2]
    decide,
   (build_no_mutation 0 (exToken ("KEEP")) none none none none).2.2.2.1 rfl⟩

/-! ## Claim C3: smart-money section arithmetic -/

/-- Trader with the given dollar buy and sell volumes; the token-unit
volumes are irrelevant to the section builder. -/
def mkTrader (addr label : String) (bought sold : ℚ) : NansenSmartMoneyTrader :=
  { address := addr, address_label := label, bought_token_volume := 0,
    sold_token_volume := 0, token_trade_volume := 0,
    bought_volume_usd := bought, sold_volume_usd := sold, trade_volume_usd := 0 }

/-- Dataset with one negative-volume buyer, separating the raw sum the
code computes from the positive-filtered sum the claim asserts. -/
def exNegData : SmartMoneyData :=
  { buyers := [mkTrader ("0xneg") ("") (-5) 0, mkTrader ("0xpos") ("") 10 0],
    sellers := [] }

theorem foldl_add_map (vol : NansenSmartMoneyTrader → ℚ)
    (l : List NansenSmartMoneyTrader) (init : ℚ) :
    l.foldl (fun s t => s + vol t) init = init + (l.map vol).sum := by
  induction l generalizing init with
  | nil => simp
  | cons x xs ih => simp [List.foldl_cons, ih, add_assoc]

/-- Claim C3, counterexample: the bought volume is the raw sum over all
buyers (negative entries included), not the sum filtered to strictly
positive volume the claim states. -/
theorem smSection_counterexample :
    (buildSmartMoneySection (some exNegData)).buySell.map (fun b => b.boughtVolumeUsd) = some 5 ∧
    ((exNegData.buyers.filter (fun b => decide (0 < b.bought_volume_usd))).map
      (fun b => b.bought_volume_usd)).sum = 10 ∧
    (buildSmartMoneySection (some exNegData)).buySell.map (fun b => b.boughtVolumeUsd) ≠
      some (((exNegData.buyers.filter (fun b => decide (0 < b.bought_volume_usd))).map
        (fun b => b.bought_volume_usd)).sum) := by
  have h1 : (buildSmartMoneySection (some exNegData)).buySell.map
      (fun b => b.boughtVolumeUsd) = some 5 := by
    norm_num [buildSmartMoneySection, exNegData, mkTrader]
  have h2 : ((exNegData.buyers.filter (fun b => decide (0 < b.bought_volume_usd))).map
      (fun b => b.bought_volume_usd)).sum = 10 := by
    norm_num [exNegData, mkTrader, List.filter]
  refine ⟨h1, h2, ?_⟩
  rw [h1, h2]
  intro hc
  exact absurd (Option.some.inj hc) (by norm_num)

/-- Claim C3, amended: on a present dataset, the aggregate holds the raw
(unfiltered) buy and sell volume sums, their difference as net flow, and
the strictly-positive-volume counts on each side; the top lists are the
strictly-positive-volume traders in some descending-by-volume order (the
stable one), truncated to 3, and labeled by the address-book label when
nonempty, else the shortened address. -/
theorem smSection_amended (buyers sellers : List NansenSmartMoneyTrader) :
    (buildSmartMoneySection (some { buyers := buyers, sellers := sellers })).buySell =
      some { boughtVolumeUsd := (buyers.map (fun t => t.bought_volume_usd)).sum,
             soldVolumeUsd := (sellers.map (fun t => t.sold_volume_usd)).sum,
             netFlowUsd := (buyers.map (fun t => t.bought_volume_usd)).sum -
               (sellers.map (fun t => t.sold_volume_usd)).sum,
             buyerCount := buyers.countP (fun b => decide (0 < b.bought_volume_usd)),
             sellerCount := sellers.countP (fun s => decide (0 < s.sold_volume_usd)) } ∧
    (∃ sortedB : List NansenSmartMoneyTrader,
      sortedB.Perm (buyers.filter (fun b => decide (0 < b.bought_volume_usd))) ∧
      sortedB.Pairwise (fun a b => b.bought_volume_usd ≤ a.bought_volume_usd) ∧
      (buildSmartMoneySection (some { buyers := buyers, sellers := sellers })).topBuyers =
        (sortedB.take 3).map (fun t =>
          { label := labelOrShort t, volumeUsd := t.bought_volume_usd, side := "BUY" })) ∧
    (∃ sortedS : List NansenSmartMoneyTrader,
      sortedS.Perm (sellers.filter (fun s => decide (0 < s.sold_volume_usd))) ∧
      sortedS.Pairwise (fun a b => b.sold_volume_usd ≤ a.sold_volume_usd) ∧
      (buildSmartMoneySection (some { buyers := buyers, sellers := sellers })).topSellers =
        (sortedS.take 3).map (fun t =>
          { label := labelOrShort t, volumeUsd := t.sold_volume_usd, side := "SELL" })) := by
  refine ⟨?_, ?_, ?_⟩
  · have hb := foldl_add_map (fun t => t.bought_volume_usd) buyers 0
    have hs := foldl_add_map (fun t => t.sold_volume_usd) sellers 0
    rw [zero_add] at hb hs
    simp only [buildSmartMoneySection, hb, hs, List.countP_eq_length_filter]
  · exact ⟨sortKeyDesc (fun t => t.bought_volume_usd)
        (buyers.filter (fun b => decide (0 < b.bought_volume_usd))),
      sortKeyDesc_perm _ _, sortKeyDesc_pairwise _ _, rfl⟩
  · exact ⟨sortKeyDesc (fun t => t.sold_volume_usd)
        (sellers.filter (fun s => decide (0 < s.sold_volume_usd))),
      sortKeyDesc_perm _ _, sortKeyDesc_pairwise _ _, rfl⟩

/-! ## Claims C5, C6, C9: the interest scorer -/

/-- Claim C5: a report whose smart-money net flow is exactly one million
dollars, with no other firing condition (hypotheses phrased as the other
contribution blocks returning nothing), scores exactly 30 with exactly
the one signal, while 999999 lands in the half-million tier at 15 with
the thousands-style signal — both tier cutoffs are hard at-least
comparisons. -/
theorem score_tier_boundary :
    (∀ (r : TokenReport) (bs : SmartMoneyBuySell),
      r.smartMoney.buySell = some bs →
      bs.netFlowUsd = 1000000 →
      smRatioPoints bs = (0, []) →
      (∀ f ∈ r.flows, flowPoints f = (0, [])) →
      whalePoints r.flows = (0, []) →
      pricePoints r.priceChange24h = (0, []) →
      scoreReport r = (30, ["SM net buying $1.0M"])) ∧
    (∀ (r : TokenReport) (bs : SmartMoneyBuySell),
      r.smartMoney.buySell = some bs →
      bs.netFlowUsd = 999999 →
      smRatioPoints bs = (0, []) →
      (∀ f ∈ r.flows, flowPoints f = (0, [])) →
      whalePoints r.flows = (0, []) →
      pricePoints r.priceChange24h = (0, []) →
      scoreReport r = (15, ["SM net buying $1000K"])) := by
  constructor <;>
    (intro r bs hbs hnet hratio hflows hwhale hprice
     unfold scoreReport
     rw [hbs, flowFold_eq_init r.flows (0, []) hflows, hwhale, hprice]
     show addSig (addSig (addSig (addSig (smNetPoints bs) (smRatioPoints bs))
       (0, [])) (0, [])) (0, []) = _
     rw [hratio]
     unfold smNetPoints toFixed
     rw [hnet]
     norm_num [abs_div]
     decide)

/-- Witness for claim C5 at the two concrete boundary reports. -/
theorem score_tier_boundary_witness :
    scoreReport rep30 = (30, ["SM net buying $1.0M"]) ∧
    scoreReport rep15 = (15, ["SM net buying $1000K"]) := by
  constructor
  · refine score_tier_boundary.1 rep30 _ rfl rfl (by norm_num [smRatioPoints]) ?_ rfl rfl
    intro f hf
    simp [rep30, baseReport, exToken] at hf
  · refine score_tier_boundary.2 rep15 _ rfl rfl (by norm_num [smRatioPoints]) ?_ rfl rfl
    intro f hf
    simp [rep15, baseReport, exToken] at hf

/-- The no-data sentinel segment and a report carrying only it. -/
def sentinelSeg : FlowSegment :=
  { name := "Whales", netFlowUsd := 0, avgFlowUsd := 0, walletCount := 0 }

def sentinelReport : TokenReport :=
  { baseReport (exToken ("SENT")) with flows := [sentinelSeg] }

/-- Claim C6: a flow segment with zero average flow or zero wallet count
(the no-data sentinel in particular) is skipped before the net-over-average
ratio is formed, contributes no ratio bonus, and a report whose segments
are all such sentinels gets a zero contribution from the whole flow loop
of scoreReport. -/
theorem flow_sentinel_skipped :
    (∀ (r : TokenReport) (f : FlowSegment), f ∈ r.flows →
      f.avgFlowUsd = 0 ∨ f.walletCount = 0 → flowPoints f = (0, [])) ∧
    (∀ (r : TokenReport), (∀ f ∈ r.flows, f.avgFlowUsd = 0 ∨ f.walletCount = 0) →
      r.flows.foldl (fun acc f => addSig acc (flowPoints f)) (0, []) = (0, [])) := by
  have hpt : ∀ (f : FlowSegment),
      f.avgFlowUsd = 0 ∨ f.walletCount = 0 → flowPoints f = (0, []) := by
    intro f hf
    unfold flowPoints
    rw [if_pos hf]
  exact ⟨fun _ f _ hf => hpt f hf,
    fun r h => flowFold_eq_init r.flows (0, []) (fun f hf => hpt f (h f hf))⟩

/-- Witness for claim C6 at the concrete sentinel segment. -/
theorem flow_sentinel_skipped_witness :
    flowPoints sentinelSeg = (0, []) ∧
    sentinelReport.flows.foldl (fun acc f => addSig acc (flowPoints f)) (0, []) = (0, []) := by
  constructor
  · exact flow_sentinel_skipped.1 sentinelReport sentinelSeg
      (List.mem_cons_self sentinelSeg []) (Or.inl rfl)
  · refine flow_sentinel_skipped.2 sentinelReport ?_
    intro f hf
    have : f = sentinelSeg := by
      simpa [sentinelReport, baseReport, exToken, sentinelSeg] using hf
    rw [this]
    exact Or.inl rfl

/-- A contribution pair is sound when its points are non-negative and are
zero exactly when no signal was pushed. -/
def goodPair (p : ℤ × List String) : Prop :=
  0 ≤ p.1 ∧ (p.1 = 0 ↔ p.2 = [])

theorem goodPair_zero : goodPair (0, []) :=
  ⟨le_refl 0, Iff.intro (fun _ => rfl) (fun _ => rfl)⟩

theorem goodPair_pair_pos (k : ℤ) (s : String) (hk : 0 < k) : goodPair (k, [s]) := by
  refine ⟨le_of_lt hk, ?_⟩
  constructor
  · intro h
    exact absurd h (ne_of_gt hk)
  · intro h
    exact absurd h (List.cons_ne_nil s [])

theorem goodPair_addSig {a b : ℤ × List String} (ha : goodPair a) (hb : goodPair b) :
    goodPair (addSig a b) := by
  obtain ⟨ha1, ha2⟩ := ha
  obtain ⟨hb1, hb2⟩ := hb
  refine ⟨add_nonneg ha1 hb1, ?_⟩
  constructor
  · intro h
    have hsum : a.1 + b.1 = 0 := h
    have hA : a.1 = 0 := le_antisymm (by linarith) ha1
    have hB : b.1 = 0 := le_antisymm (by linarith) hb1
    show a.2 ++ b.2 = []
    rw [ha2.mp hA, hb2.mp hB]
    rfl
  · intro h
    obtain ⟨h2a, h2b⟩ := List.append_eq_nil.mp h
    show a.1 + b.1 = 0
    rw [ha2.mpr h2a, hb2.mpr h2b]
    rfl

theorem goodPair_smNet (bs : SmartMoneyBuySell) : goodPair (smNetPoints bs) := by
  simp only [smNetPoints]
  by_cases h1 : (1000000 : ℚ) ≤ |bs.netFlowUsd|
  · rw [if_pos h1]
    exact goodPair_pair_pos 30 _ (by norm_num)
  · rw [if_neg h1]
    by_cases h2 : (500000 : ℚ) ≤ |bs.netFlowUsd|
    · rw [if_pos h2]
      exact goodPair_pair_pos 15 _ (by norm_num)
    · rw [if_neg h2]
      exact goodPair_zero

theorem goodPair_smRatio (bs : SmartMoneyBuySell) : goodPair (smRatioPoints bs) := by
  simp only [smRatioPoints]
  by_cases h0 : 0 < bs.buyerCount ∧ 0 < bs.sellerCount
  · rw [if_pos h0]
    by_cases h1 : (3 : ℚ) ≤ (bs.buyerCount : ℚ) / (bs.sellerCount : ℚ)
    · rw [if_pos h1]
      exact goodPair_pair_pos 20 _ (by norm_num)
    · rw [if_neg h1]
      by_cases h2 : (bs.buyerCount : ℚ) / (bs.sellerCount : ℚ) ≤ 1 / 3
      · rw [if_pos h2]
        exact goodPair_pair_pos 20 _ (by norm_num)
      · rw [if_neg h2]
        exact goodPair_zero
  · rw [if_neg h0]
    exact goodPair_zero

theorem goodPair_smPoints (osb : Option SmartMoneyBuySell) : goodPair (smPoints osb) := by
  cases osb with
  | none => exact goodPair_zero
  | some bs => exact goodPair_addSig (goodPair_smNet bs) (goodPair_smRatio bs)

theorem goodPair_flow (f : FlowSegment) : goodPair (flowPoints f) := by
  simp only [flowPoints]
  by_cases h0 : f.avgFlowUsd = 0 ∨ f.walletCount = 0
  · rw [if_pos h0]
    exact goodPair_zero
  · rw [if_neg h0]
    by_cases h1 : (3 : ℚ) ≤ |f.netFlowUsd / f.avgFlowUsd| ∧ (100000 : ℚ) ≤ |f.netFlowUsd|
    · rw [if_pos h1]
      by_cases h2 : f.name = "Smart Traders" ∨ f.name = "Whales"
      · rw [if_pos h2]
        exact goodPair_pair_pos 25 _ (by norm_num)
      · rw [if_neg h2]
        by_cases h3 : f.name = "Exchanges"
        · rw [if_pos h3]
          by_cases h4 : f.netFlowUsd < 0
          · rw [if_pos h4]
            exact goodPair_pair_pos 15 _ (by norm_num)
          · rw [if_neg h4]
            exact goodPair_zero
        · rw [if_neg h3]
          exact goodPair_zero
    · rw [if_neg h1]
      exact goodPair_zero

theorem goodPair_whale (flows : List FlowSegment) : goodPair (whalePoints flows) := by
  simp only [whalePoints]
  split
  · split
    · exact goodPair_pair_pos 20 _ (by norm_num)
    · exact goodPair_zero
  · exact goodPair_zero

theorem goodPair_price (pc : Option ℚ) : goodPair (pricePoints pc) := by
  simp only [pricePoints]
  split
  · split
    · exact goodPair_pair_pos 10 _ (by norm_num)
    · exact goodPair_zero
  · exact goodPair_zero

theorem goodPair_fold (l : List FlowSegment) (init : ℤ × List String)
    (h : goodPair init) :
    goodPair (l.foldl (fun acc f => addSig acc (flowPoints f)) init) := by
  induction l generalizing init with
  | nil => exact h
  | cons f fs ih =>
    exact ih (addSig init (flowPoints f)) (goodPair_addSig h (goodPair_flow f))

/-- Claim C9: the score is never negative, and it is zero exactly when no
signal was emitted — every award pushes a signal and every signal comes
with an award. -/
theorem score_nonneg_signal_iff (r : TokenReport) :
    0 ≤ (scoreReport r).1 ∧ ((scoreReport r).1 = 0 ↔ (scoreReport r).2 = []) := by
  have h : goodPair (scoreReport r) := by
    unfold scoreReport
    exact goodPair_addSig
      (goodPair_addSig
        (goodPair_addSig (goodPair_smPoints _)
          (goodPair_fold _ _ goodPair_zero))
        (goodPair_whale _))
      (goodPair_price _)
  exact h

/-! ## Claim C7: the watchlist scanner -/

theorem toFixed_one_1 : toFixed (1 : ℚ) 1 = "1.0" := by
  unfold toFixed
  norm_num
  decide

theorem toFixed_three_1 : toFixed (3 : ℚ) 1 = "3.0" := by
  unfold toFixed
  norm_num
  decide

theorem toFixed_four_1 : toFixed (4 : ℚ) 1 = "4.0" := by
  unfold toFixed
  norm_num
  decide

theorem toFixed_six_1 : toFixed (6 : ℚ) 1 = "6.0" := by
  unfold toFixed
  norm_num
  decide

theorem toFixed_twelve_1 : toFixed (12 : ℚ) 1 = "12.0" := by
  unfold toFixed
  norm_num
  decide

theorem toFixed_fifteen_1 : toFixed (15 : ℚ) 1 = "15.0" := by
  unfold toFixed
  norm_num
  decide

theorem score_rep10 : scoreReport rep10 = (10, ["Price up 15.0%"]) := by
  norm_num [scoreReport, rep10, baseReport, exToken, smPoints, whalePoints,
    pricePoints, addSig, toFixed_fifteen_1]
  decide

theorem score_rep45 : scoreReport rep45 =
    (45, ["SM net buying $1.0M", "Exchange outflow 3.0x avg"]) := by
  norm_num [scoreReport, rep45, baseReport, exToken, smOnly, smPoints, smNetPoints,
    smRatioPoints, flowPoints, whalePoints, pricePoints, addSig, abs_div,
    toFixed_one_1, toFixed_three_1]
  decide

theorem score_rep30 : scoreReport rep30 = (30, ["SM net buying $1.0M"]) := by
  norm_num [scoreReport, rep30, baseReport, exToken, smOnly, smPoints, smNetPoints,
    smRatioPoints, whalePoints, pricePoints, addSig, toFixed_one_1]
  decide

theorem score_rep60 : scoreReport rep60 =
    (60, ["SM net buying $1.0M", "Whale accumulation $6.0M", "Price up 12.0%"]) := by
  norm_num [scoreReport, rep60, baseReport, exToken, smOnly, smPoints, smNetPoints,
    smRatioPoints, flowPoints, whalePoints, pricePoints, addSig, abs_div,
    toFixed_one_1, toFixed_six_1, toFixed_twelve_1]
  decide

theorem score_rep25 : scoreReport rep25 = (25, ["Smart Traders 4.0x avg inflow"]) := by
  norm_num [scoreReport, rep25, baseReport, exToken, smPoints, flowPoints,
    whalePoints, pricePoints, addSig, abs_div, toFixed_four_1]
  decide

/-- Claim C7: the scanner result is a permutation of exactly the tokens
whose successfully built reports score at least minScore (a failing build
contributes nothing and aborts nothing), sorted descending by score, and
stable — for every score value the results carry the original watchlist
order. The closing equations run the concrete example: builds scoring
10, 45, 30, 60 and 25 plus one failing build, with threshold 30, yield
exactly the three results ordered 60, 45, 30. -/
theorem scanWatchlist_spec :
    (∀ (build : ResolvedToken → Option TokenReport) (tokens : List ResolvedToken)
        (minScore : ℤ),
      (scanWatchlist build tokens minScore).Perm (tokens.filterMap (fun token =>
        match build token with
        | none => none
        | some report =>
          let sc := scoreReport report
          if minScore ≤ sc.1 then
            some { token := token, report := report, interestScore := sc.1, signals := sc.2 }
          else none)) ∧
      (scanWatchlist build tokens minScore).Pairwise
        (fun a b => b.interestScore ≤ a.interestScore) ∧
      (∀ s : ℤ, (scanWatchlist build tokens minScore).filter
          (fun r => decide (r.interestScore = s)) =
        (tokens.filterMap (fun token =>
          match build token with
          | none => none
          | some report =>
            let sc := scoreReport report
            if minScore ≤ sc.1 then
              some { token := token, report := report, interestScore := sc.1, signals := sc.2 }
            else none)).filter (fun r => decide (r.interestScore = s)))) ∧
    (scanWatchlist exBuild exTokens 30).map (fun r => r.interestScore) = [60, 45, 30] ∧
    (scanWatchlist exBuild exTokens 30).map (fun r => r.token.symbol) =
      ["T60", "T45", "T30"] ∧
    exBuild (exToken ("TF")) = none := by
  have hb10 : exBuild (exToken ("T10")) = some rep10 := by simp [exBuild, exToken]
  have hb45 : exBuild (exToken ("T45")) = some rep45 := by simp [exBuild, exToken]
  have hb30 : exBuild (exToken ("T30")) = some rep30 := by simp [exBuild, exToken]
  have hb60 : exBuild (exToken ("T60")) = some rep60 := by simp [exBuild, exToken]
  have hb25 : exBuild (exToken ("T25")) = some rep25 := by simp [exBuild, exToken]
  have hbF : exBuild (exToken ("TF")) = none := by simp [exBuild, exToken]
  refine ⟨fun build tokens minScore =>
    ⟨sortKeyDesc_perm _ _, sortKeyDesc_pairwise _ _, fun s => sortKeyDesc_filter_eq _ _ s⟩,
    ?_, ?_, hbF⟩
  · simp only [scanWatchlist, exTokens, List.filterMap_cons, List.filterMap_nil,
      hb10, hb45, hb30, hb60, hb25, hbF,
      score_rep10, score_rep45, score_rep30, score_rep60, score_rep25]
    norm_num [sortKeyDesc, isortGe, insertGe]
  · simp only [scanWatchlist, exTokens, List.filterMap_cons, List.filterMap_nil,
      hb10, hb45, hb30, hb60, hb25, hbF,
      score_rep10, score_rep45, score_rep30, score_rep60, score_rep25]
    norm_num [sortKeyDesc, isortGe, insertGe, exToken]

/-! ## Claim C8: degraded address resolution -/

theorem tryChainsLoop_none (lookup : String → String → Option CGContractInfo)
    (query : String) (hfail : ∀ p a, lookup p a = none) (cs : List String) :
    tryChainsLoop lookup query cs = none := by
  induction cs with
  | nil => rfl
  | cons c rest ih =>
    unfold tryChainsLoop
    cases hpk : lookupAssoc CHAIN_TO_PLATFORM c with
    | none => simpa [hpk] using ih
    | some platKey => simpa [hpk, hfail] using ih

/-- Claim C8: when every per-chain contract lookup fails (hinted chain
included), resolveByAddress does not fail but returns the degraded
placeholder token: name Unknown Token, symbol three question marks, the
original address, and the chain hint or inferred chain when present, else
ethereum, the head of the candidate list. -/
theorem resolveByAddress_degraded (lookup : String → String → Option CGContractInfo)
    (parsed : ParsedInput)
    (hfail : ∀ p a, lookup p a = none)
    (hhint : parsed.chainHint ≠ some "")
    (hinf : parsed.inferredChain ≠ some "") :
    resolveByAddress lookup parsed =
      { name := "Unknown Token", symbol := "???",
        chain := (jsNullish parsed.chainHint parsed.inferredChain).getD ("ethereum"),
        address := parsed.query, coingeckoId := none } := by
  unfold resolveByAddress
  simp only [tryChainsLoop_none lookup parsed.query hfail]
  cases hch : parsed.chainHint with
  | none =>
    cases hin : parsed.inferredChain with
    | none => rfl
    | some s =>
      have hs : ¬(s = "") := by
        intro h
        exact hinf (by rw [hin, h])
      simp [truthyOpt, jsNullish, hs]
  | some s =>
    have hs : ¬(s = "") := by
      intro h
      exact hhint (by rw [hch, h])
    simp [truthyOpt, jsNullish, hs]

/-- Witness for claim C8: an unhinted EVM address on which all 21 probes
fail resolves to the placeholder on ethereum. -/
theorem resolveByAddress_degraded_witness :
    resolveByAddress (fun _ _ => none)
      { query := "0x1111111111111111111111111111111111111111",
        isContractAddress := true, chainHint := none, inferredChain := none } =
      { name := "Unknown Token", symbol := "???", chain := "ethereum",
        address := "0x1111111111111111111111111111111111111111", coingeckoId := none } := by
  rw [resolveByAddress_degraded (fun _ _ => none)
    { query := "0x1111111111111111111111111111111111111111",
      isContractAddress := true, chainHint := none, inferredChain := none }
    (fun _ _ => rfl) (by simp) (by simp)]
  rfl
